import Mathlib

/-!
Verification of the TalkEcho capture/transcription/completion core against its
natural-language specification.  The definitions below are a shallow embedding
of the TypeScript source: pure functions become Lean functions, the React hook
state of the capture orchestrator becomes an explicit state record with the
source's event handlers as state transformers, and machine floats carrying
audio samples are modelled as rationals.
-/

namespace TalkEcho

/-! ## Audio buffer utilities (src/lib/audio-mixer.ts) -/

/-- A Web Audio `AudioBuffer`: channel count, frame length, sample rate, and
per-channel sample data (`getChannelData`), with samples as rationals. -/
@[ext]
structure AudioBuffer where
  numberOfChannels : ℕ
  length : ℕ
  sampleRate : ℕ
  channelData : ℕ → ℕ → ℚ

/-- Truncation toward zero, the conversion `DataView.setInt16` applies to a
non-integral number (ECMAScript ToInt16): ceiling for negatives, floor
otherwise. -/
def truncTowardZero (q : ℚ) : ℤ :=
  if q < 0 then ⌈q⌉ else ⌊q⌋

/-- `audioBufferToWav`, per-sample conversion (audio-mixer.ts lines 89-90):
`const sample = Math.max(-1, Math.min(1, channels[channel][i]))`. -/
def wavClampSample (s : ℚ) : ℚ := max (-1) (min 1 s)

/-- `audioBufferToWav`, per-sample quantization (audio-mixer.ts line 90):
`view.setInt16(offset, sample < 0 ? sample * 0x8000 : sample * 0x7FFF, true)`. -/
def wavQuantizeSample (s : ℚ) : ℤ :=
  let sample := wavClampSample s
  if sample < 0 then truncTowardZero (sample * 32768)
  else truncTowardZero (sample * 32767)

/-- The sample-writing loop of `audioBufferToWav` (lines 87-93): frames in
order, channels interleaved within a frame, each sample quantized. -/
def audioBufferToWavData (b : AudioBuffer) : List ℤ :=
  (List.range b.length).map
    (fun i => (List.range b.numberOfChannels).map
      (fun channel => wavQuantizeSample (b.channelData channel i)))
  |>.flatten

/-- `resampleBuffer` (audio-mixer.ts lines 168-185) delegates the actual sample
computation to an `OfflineAudioContext`, an external collaborator; the rendered
samples are therefore an oracle parameter `render`.  The shape is from the
source: the offline context is created with the input's channel count, length
`buffer.duration * targetSampleRate` (truncated to an integer by WebIDL
conversion, i.e. `length * target / rate` in integer division), and the target
sample rate. -/
def resampleBuffer (render : AudioBuffer → ℕ → ℕ → ℕ → ℚ)
    (buffer : AudioBuffer) (targetSampleRate : ℕ) : AudioBuffer :=
  { numberOfChannels := buffer.numberOfChannels
    length := buffer.length * targetSampleRate / buffer.sampleRate
    sampleRate := targetSampleRate
    channelData := render buffer targetSampleRate }

/-- `mixAudioBuffers` (audio-mixer.ts lines 108-163): take the max sample rate,
resample the lower-rate input up, then per channel and per sample average the
gained samples, reading past-the-end samples as zero and reusing a source's
last channel when it has fewer channels than the output. -/
def mixAudioBuffers (render : AudioBuffer → ℕ → ℕ → ℕ → ℚ)
    (buffer1 buffer2 : AudioBuffer) (gain1 gain2 : ℚ) : AudioBuffer :=
  let sampleRate := max buffer1.sampleRate buffer2.sampleRate
  let resampledBuffer1 := if buffer1.sampleRate = sampleRate then buffer1
    else resampleBuffer render buffer1 sampleRate
  let resampledBuffer2 := if buffer2.sampleRate = sampleRate then buffer2
    else resampleBuffer render buffer2 sampleRate
  let maxLength := max resampledBuffer1.length resampledBuffer2.length
  let numberOfChannels :=
    max resampledBuffer1.numberOfChannels resampledBuffer2.numberOfChannels
  { numberOfChannels := numberOfChannels
    length := maxLength
    sampleRate := sampleRate
    channelData := fun channel i =>
      let input1 := resampledBuffer1.channelData
        (min channel (resampledBuffer1.numberOfChannels - 1))
      let input2 := resampledBuffer2.channelData
        (min channel (resampledBuffer2.numberOfChannels - 1))
      let sample1 := if i < resampledBuffer1.length then input1 i * gain1 else 0
      let sample2 := if i < resampledBuffer2.length then input2 i * gain2 else 0
      (sample1 + sample2) / 2 }

/-- Claim C7: every sample written by the WAV encoder is clamped to the
interval from -1 to 1 and quantized by 32768 when negative, 32767 when
non-negative, rounding toward zero (ceiling below zero, floor above), and the
written value always fits in a signed 16-bit integer. -/
theorem wav_sample_quantization (s : ℚ) :
    wavQuantizeSample s =
      (if wavClampSample s < 0 then ⌈wavClampSample s * 32768⌉
       else ⌊wavClampSample s * 32767⌋) ∧
    -32768 ≤ wavQuantizeSample s ∧ wavQuantizeSample s ≤ 32767 := by
  have hlo : (-1 : ℚ) ≤ wavClampSample s := le_max_left _ _
  have hhi : wavClampSample s ≤ 1 := by
    have : min 1 s ≤ (1 : ℚ) := min_le_left _ _
    exact max_le (by norm_num) this
  refine ⟨?_, ?_, ?_⟩
  · unfold wavQuantizeSample truncTowardZero
    by_cases h : wavClampSample s < 0
    · have hneg : wavClampSample s * 32768 < 0 :=
        mul_neg_of_neg_of_pos h (by norm_num)
      simp [h, hneg]
    · have hge : (0 : ℚ) ≤ wavClampSample s := not_lt.mp h
      have hnn : ¬ wavClampSample s * 32767 < 0 := by
        exact not_lt.mpr (mul_nonneg hge (by norm_num))
      simp [h, hnn]
  · unfold wavQuantizeSample truncTowardZero
    by_cases h : wavClampSample s < 0
    · have hneg : wavClampSample s * 32768 < 0 :=
        mul_neg_of_neg_of_pos h (by norm_num)
      have hb : (-32768 : ℚ) ≤ wavClampSample s * 32768 := by nlinarith
      have : ((-32768 : ℤ) : ℚ) ≤ wavClampSample s * 32768 := by
        push_cast; exact hb
      simp only [h, hneg, if_true, if_pos]
      calc (-32768 : ℤ) = ⌈((-32768 : ℤ) : ℚ)⌉ := (Int.ceil_intCast _).symm
        _ ≤ ⌈wavClampSample s * 32768⌉ := Int.ceil_le_ceil this
    · have hge : (0 : ℚ) ≤ wavClampSample s := not_lt.mp h
      have hnn : ¬ wavClampSample s * 32767 < 0 :=
        not_lt.mpr (mul_nonneg hge (by norm_num))
      have hb : ((0 : ℤ) : ℚ) ≤ wavClampSample s * 32767 := by
        push_cast; exact mul_nonneg hge (by norm_num)
      simp only [h, hnn, if_false, if_neg]
      have h0 : (0 : ℤ) ≤ ⌊wavClampSample s * 32767⌋ := by
        calc (0 : ℤ) = ⌊((0 : ℤ) : ℚ)⌋ := by simp
          _ ≤ ⌊wavClampSample s * 32767⌋ := Int.floor_le_floor hb
      omega
  · unfold wavQuantizeSample truncTowardZero
    by_cases h : wavClampSample s < 0
    · have hneg : wavClampSample s * 32768 < 0 :=
        mul_neg_of_neg_of_pos h (by norm_num)
      have hc : ⌈wavClampSample s * 32768⌉ ≤ 0 := by
        refine Int.ceil_le.mpr ?_
        push_cast
        exact le_of_lt hneg
      simp only [h, hneg, if_true, if_pos]
      omega
    · have hge : (0 : ℚ) ≤ wavClampSample s := not_lt.mp h
      have hnn : ¬ wavClampSample s * 32767 < 0 :=
        not_lt.mpr (mul_nonneg hge (by norm_num))
      have hb : wavClampSample s * 32767 ≤ ((32767 : ℤ) : ℚ) := by
        push_cast; nlinarith
      simp only [h, hnn, if_false, if_neg]
      exact Int.floor_le_floor hb |>.trans (by simp)

/-- Claim C8: mixing is commutative when both inputs use the same gain
(byte-identical output, including the shape), and the shape rules hold: the
output sample rate is the max of the inputs' rates, the channel count is the
max of the inputs' channel counts (resampling preserves channel count), and
for inputs of equal sample rate the output length is the max of the two input
lengths. -/
theorem mixAudioBuffers_comm_and_shape
    (render : AudioBuffer → ℕ → ℕ → ℕ → ℚ)
    (a b : AudioBuffer) (g g1 g2 : ℚ) :
    mixAudioBuffers render a b g g = mixAudioBuffers render b a g g ∧
    (mixAudioBuffers render a b g1 g2).sampleRate
      = max a.sampleRate b.sampleRate ∧
    (mixAudioBuffers render a b g1 g2).numberOfChannels
      = max a.numberOfChannels b.numberOfChannels ∧
    (∀ (c1 l1 c2 l2 r : ℕ) (d1 d2 : ℕ → ℕ → ℚ),
      (mixAudioBuffers render ⟨c1, l1, r, d1⟩ ⟨c2, l2, r, d2⟩ g1 g2).length
        = max l1 l2) := by
  refine ⟨?_, ?_, ?_, ?_⟩
  · unfold mixAudioBuffers
    rw [Nat.max_comm b.sampleRate a.sampleRate]
    ext ch i
    · exact Nat.max_comm _ _
    · exact Nat.max_comm _ _
    · rfl
    · exact congrArg (fun z => z / 2) (add_comm _ _)
  · rfl
  · have hres : ∀ (c : AudioBuffer) (t : ℕ),
        (if c.sampleRate = t then c
          else resampleBuffer render c t).numberOfChannels
          = c.numberOfChannels := by
      intro c t
      by_cases h : c.sampleRate = t <;> simp [h, resampleBuffer]
    show max
        (if a.sampleRate = max a.sampleRate b.sampleRate then a
          else resampleBuffer render a
            (max a.sampleRate b.sampleRate)).numberOfChannels
        (if b.sampleRate = max a.sampleRate b.sampleRate then b
          else resampleBuffer render b
            (max a.sampleRate b.sampleRate)).numberOfChannels
        = max a.numberOfChannels b.numberOfChannels
    rw [hres, hres]
  · intro c1 l1 c2 l2 r d1 d2
    show max
        (if r = max r r then (⟨c1, l1, r, d1⟩ : AudioBuffer)
          else resampleBuffer render ⟨c1, l1, r, d1⟩ (max r r)).length
        (if r = max r r then (⟨c2, l2, r, d2⟩ : AudioBuffer)
          else resampleBuffer render ⟨c2, l2, r, d2⟩ (max r r)).length
        = max l1 l2
    simp [Nat.max_self]

/-! ## Conversation data model (useAudioOverlay, src/unnamed/part_002) -/

/-- The `source` tag of a chat message (part_002 line 102). -/
inductive Source where
  | system_audio
  | microphone
  | manual
deriving DecidableEq, Repr

/-- `ChatMessage` (part_002 lines 97-103); roles are the strings
"user" / "assistant" / "system" as in the source. -/
structure ChatMessage where
  id : String
  role : String
  content : String
  timestamp : ℕ
  source : Option Source
deriving DecidableEq, Repr

/-- `ChatConversation` (part_002 lines 106-112); `messages` is stored in
most-recent-first insertion order, as the source prepends new messages. -/
structure ChatConversation where
  id : String
  title : String
  messages : List ChatMessage
  createdAt : ℕ
  updatedAt : ℕ
deriving DecidableEq, Repr

/-- `Message` from types/completion, as sent to the AI backend. -/
structure CompletionMessage where
  role : String
  content : String
deriving DecidableEq, Repr

/-- Modelled from the spec: `generateMessageId` lives in src/lib, which is not
part of the provided sources; the spec says the id is derived from role and
timestamp.  No claim depends on the exact string. -/
def generateMessageId (role : String) (timestamp : ℕ) : String :=
  role ++ "_" ++ toString timestamp

/-- Modelled from the spec: `generateConversationTitle` lives in src/lib, which
is not part of the provided sources; the spec says the title is derived from
the first transcript.  No claim depends on the exact string. -/
def generateConversationTitle (transcript : String) : String :=
  transcript

/-- `buildConversationHistory` (part_002 lines 160-169): reverse the
most-recent-first message store into chronological order and keep role and
content. -/
def buildConversationHistory (messages : List ChatMessage) :
    List CompletionMessage :=
  messages.reverse.map (fun msg => { role := msg.role, content := msg.content })

/-- `MAX_HISTORY_CHARS` (part_002 line 928). -/
def MAX_HISTORY_CHARS : ℕ := 16000

/-- The history-limiting loop of `processWithAI` (part_002 lines 931-942):
walk the list front to back, accumulate message lengths, and stop at the first
message that would push the total over `MAX_HISTORY_CHARS` (the `break` leaves
the loop entirely). -/
def takeWithinBudget (msgs : List CompletionMessage) (totalChars : ℕ) :
    List CompletionMessage :=
  match msgs with
  | [] => []
  | msg :: rest =>
    if totalChars + msg.content.length > MAX_HISTORY_CHARS then []
    else msg :: takeWithinBudget rest (totalChars + msg.content.length)

/-- The `filteredHistory` computed by `processWithAI` (part_002 lines 929-942)
for a manual prompt with a non-empty prior history. -/
def filterHistoryForManual (previousMessages : List CompletionMessage) :
    List CompletionMessage :=
  takeWithinBudget previousMessages 0

/-- The payload of one `fetchAIResponse` call. -/
structure CompletionRequest where
  systemPrompt : String
  history : List CompletionMessage
  userMessage : String
deriving DecidableEq, Repr

/-- The request `processWithAI` dispatches (part_002 lines 923-951):
`useHistory` is true only for the "manual" source; the history sent is the
budget-limited list for manual prompts and `[]` otherwise. -/
def processWithAIRequest (transcription prompt : String)
    (previousMessages : List CompletionMessage) (source : Source) :
    CompletionRequest :=
  let useHistory := source = Source.manual
  let filteredHistory :=
    if useHistory ∧ previousMessages.length > 0 then
      filterHistoryForManual previousMessages
    else []
  { systemPrompt := prompt
    history := if useHistory then filteredHistory else []
    userMessage := transcription }

/-- The request `processMicrophoneAudio` dispatches (part_002 lines 821-828):
the history is the literal empty list. -/
def processMicrophoneAudioRequest (transcription prompt : String) :
    CompletionRequest :=
  { systemPrompt := prompt, history := [], userMessage := transcription }

/-- Total content characters of a history list. -/
def totalContentChars (msgs : List CompletionMessage) : ℕ :=
  msgs.foldr (fun msg acc => msg.content.length + acc) 0

lemma takeWithinBudget_le (msgs : List CompletionMessage) (totalChars : ℕ)
    (h : totalChars ≤ MAX_HISTORY_CHARS) :
    totalChars + totalContentChars (takeWithinBudget msgs totalChars)
      ≤ MAX_HISTORY_CHARS := by
  induction msgs generalizing totalChars with
  | nil => simpa [takeWithinBudget, totalContentChars] using h
  | cons msg rest ih =>
    by_cases hb : totalChars + msg.content.length > MAX_HISTORY_CHARS
    · simpa [takeWithinBudget, hb, totalContentChars] using h
    · have hle : totalChars + msg.content.length ≤ MAX_HISTORY_CHARS :=
        not_lt.mp hb
      have := ih (totalChars + msg.content.length) hle
      simp only [takeWithinBudget, hb, if_false, totalContentChars,
        List.foldr_cons] at *
      omega

lemma takeWithinBudget_take (msgs : List CompletionMessage) (totalChars : ℕ) :
    ∃ n, takeWithinBudget msgs totalChars = msgs.take n := by
  induction msgs generalizing totalChars with
  | nil => exact ⟨0, rfl⟩
  | cons msg rest ih =>
    by_cases hb : totalChars + msg.content.length > MAX_HISTORY_CHARS
    · exact ⟨0, by simp [takeWithinBudget, hb]⟩
    · obtain ⟨n, hn⟩ := ih (totalChars + msg.content.length)
      exact ⟨n + 1, by simp [takeWithinBudget, hb, hn]⟩

/-- Claim C4: the history a completion request carries is the budget-limited
prior turns exactly when the source is "manual", and the empty list for every
other source (system-audio and microphone utterances, whether VAD- or
continuous-triggered); in the manual case the history total stays within the
character budget and is an initial segment of the chronological prior turns;
the microphone track's dispatcher always sends an empty history. -/
theorem history_policy_by_source (transcription prompt : String)
    (previousMessages : List CompletionMessage) (source : Source) :
    (processWithAIRequest transcription prompt previousMessages source).history
      = (if source = Source.manual
          then filterHistoryForManual previousMessages else []) ∧
    totalContentChars
      (processWithAIRequest transcription prompt previousMessages
        Source.manual).history ≤ MAX_HISTORY_CHARS ∧
    (∃ n, (processWithAIRequest transcription prompt previousMessages
        Source.manual).history = previousMessages.take n) ∧
    (processMicrophoneAudioRequest transcription prompt).history = [] := by
  refine ⟨?_, ?_, ?_, ?_⟩
  · cases source <;>
      cases previousMessages <;>
        simp [processWithAIRequest, filterHistoryForManual, takeWithinBudget]
  · have h := takeWithinBudget_le previousMessages 0 (by norm_num [MAX_HISTORY_CHARS])
    cases previousMessages with
    | nil => simp [processWithAIRequest, totalContentChars]
    | cons m rest =>
      simpa [processWithAIRequest, filterHistoryForManual] using h
  · cases previousMessages with
    | nil => exact ⟨0, by simp [processWithAIRequest]⟩
    | cons m rest =>
      simpa [processWithAIRequest, filterHistoryForManual] using
        takeWithinBudget_take (m :: rest) 0
  · rfl

/-- The history selection the spec describes, written from the spec's words:
drop the oldest turns first, i.e. retain the most recent turns whose total
length fits the budget, returned in chronological order.  (Greedy from the
newest turn backwards, then restored to chronological order.) -/
def specNewestFirstRetention (chronologicalMessages : List CompletionMessage) :
    List CompletionMessage :=
  (takeWithinBudget chronologicalMessages.reverse 0).reverse

/-- A 16000-character message content, filling the whole history budget. -/
def c3OldContent : String := String.mk (List.replicate 16000 'a')

lemma c3OldContent_length : c3OldContent.length = 16000 := by
  show (List.replicate 16000 'a').length = 16000
  exact List.length_replicate 16000 'a'

/-- The failing conversation for claim C3, in the store's most-recent-first
order: the newest turn is one character, the oldest fills the entire budget. -/
def c3StoredMessages : List ChatMessage :=
  [ { id := "m2", role := "user", content := "b", timestamp := 2,
      source := some Source.manual },
    { id := "m1", role := "user", content := c3OldContent, timestamp := 1,
      source := some Source.manual } ]

/-- Claim C3 (code bug): on a manual prompt whose prior conversation exceeds
the 16000-character budget, the dispatched history keeps the OLDEST turns that
fit, not the most recent ones: with an oldest turn of 16000 characters and a
newest turn of 1 character, the dispatcher sends the oldest turn and drops the
newest, while the spec's drop-oldest-first selection would retain the newest.
The in-source comment "Take messages from most recent" documents the spec's
intent, so the code is the slip. -/
theorem history_truncation_keeps_oldest :
    (processWithAIRequest "q" "p"
        (buildConversationHistory c3StoredMessages) Source.manual).history
      = [{ role := "user", content := c3OldContent }] ∧
    specNewestFirstRetention (buildConversationHistory c3StoredMessages)
      = [{ role := "user", content := "b" }] ∧
    (processWithAIRequest "q" "p"
        (buildConversationHistory c3StoredMessages) Source.manual).history
      ≠ specNewestFirstRetention
          (buildConversationHistory c3StoredMessages) := by
  have hb : ("b" : String).length = 1 := rfl
  have hhist : buildConversationHistory c3StoredMessages
      = [{ role := "user", content := c3OldContent },
         { role := "user", content := "b" }] := by
    simp [buildConversationHistory, c3StoredMessages]
  have hcode : (processWithAIRequest "q" "p"
      (buildConversationHistory c3StoredMessages) Source.manual).history
      = [{ role := "user", content := c3OldContent }] := by
    rw [hhist]
    simp [processWithAIRequest, filterHistoryForManual, takeWithinBudget,
      c3OldContent_length, hb, MAX_HISTORY_CHARS]
  have hspec : specNewestFirstRetention
      (buildConversationHistory c3StoredMessages)
      = [{ role := "user", content := "b" }] := by
    rw [hhist]
    simp [specNewestFirstRetention, takeWithinBudget, c3OldContent_length, hb,
      MAX_HISTORY_CHARS]
  refine ⟨hcode, hspec, ?_⟩
  rw [hcode, hspec]
  intro h
  have hcontent : c3OldContent = "b" := by
    have := List.head_eq_of_cons_eq h
    exact congrArg CompletionMessage.content this
  have := congrArg String.length hcontent
  rw [c3OldContent_length, hb] at this
  exact absurd this (by norm_num)

/-! ## Orchestrator state (useAudioOverlay, src/unnamed/part_002)

The React hook's state and refs become one record; the source's handlers
become state transformers.  Abort controllers are identified by allocation
index: `controllers i` is the aborted flag of controller `i`, `abortRef` is
`abortControllerRef.current`. -/

structure OverlayState where
  capturing : Bool
  isProcessing : Bool
  isAIProcessing : Bool
  isContinuousMode : Bool
  isRecordingInContinuousMode : Bool
  recordingProgress : ℕ
  lastTranscription : String
  lastAIResponse : String
  error : String
  setupRequired : Bool
  isPopoverOpen : Bool
  useSystemPrompt : Bool
  includeMicrophone : Bool
  micVadReady : Bool
  micVadListening : Bool
  isMicProcessing : Bool
  conversation : ChatConversation
  controllers : ℕ → Bool
  nextControllerId : ℕ
  abortRef : Option ℕ

/-- `abortControllerRef.current?.abort()`: mark the current controller
aborted. -/
def abortCurrentController (s : OverlayState) : OverlayState :=
  match s.abortRef with
  | none => s
  | some i =>
    { s with controllers := fun j => if j = i then true else s.controllers j }

/-- The head of `processWithAI` (part_002 lines 896-905): abort any previous
controller, install a fresh (unaborted) one, raise `isAIProcessing`, clear
`lastAIResponse` and `error`. -/
def processWithAIStart (s : OverlayState) : OverlayState :=
  let s1 := abortCurrentController s
  { s1 with
    abortRef := some s1.nextControllerId
    nextControllerId := s1.nextControllerId + 1
    isAIProcessing := true
    lastAIResponse := ""
    error := "" }

/-- The commit step of `processWithAI` after the stream has been fully
accumulated (part_002 lines 960-990): only a non-empty `fullResponse` appends
anything, and then it prepends a user message and an assistant message to
whatever conversation is current at that moment; the `finally` clears
`isAIProcessing`.  No abort signal is consulted. -/
def processWithAIFinish (s : OverlayState)
    (transcription fullResponse : String) (source : Source) (timestamp : ℕ) :
    OverlayState :=
  let conv :=
    if fullResponse = "" then s.conversation
    else
      { s.conversation with
        messages :=
          { id := generateMessageId "user" timestamp, role := "user",
            content := transcription, timestamp := timestamp,
            source := some source } ::
          { id := generateMessageId "assistant" (timestamp + 1),
            role := "assistant", content := fullResponse,
            timestamp := timestamp + 1, source := some source } ::
          s.conversation.messages
        updatedAt := timestamp
        title := if s.conversation.title = "" then
            generateConversationTitle transcription
          else s.conversation.title }
  { s with conversation := conv, isAIProcessing := false }

/-- The commit step of `processMicrophoneAudio` (part_002 lines 836-870): the
user message is always prepended ("Always save the transcription, even if
translation fails"), the assistant message only when `fullResponse` is
non-empty; the `finally` clears `isMicProcessing`. -/
def processMicrophoneAudioFinish (s : OverlayState)
    (transcription fullResponse : String) (timestamp : ℕ) : OverlayState :=
  { s with
    conversation :=
      { s.conversation with
        messages :=
          { id := generateMessageId "user" timestamp, role := "user",
            content := transcription, timestamp := timestamp,
            source := some Source.microphone } ::
          ((if fullResponse = "" then []
            else
              [{ id := generateMessageId "assistant" (timestamp + 1),
                 role := "assistant", content := fullResponse,
                 timestamp := timestamp + 1,
                 source := some Source.microphone }]) ++
            s.conversation.messages)
        updatedAt := timestamp
        title := if s.conversation.title = "" then
            generateConversationTitle transcription
          else s.conversation.title }
    isMicProcessing := false }

/-- `startNewConversation` (part_002 lines 1264-1279): reset the conversation
to a fresh one (the new id comes from the time-based generator, an argument
here) and clear the transient fields.  It does not touch
`abortControllerRef`. -/
def startNewConversation (newId : String) (s : OverlayState) : OverlayState :=
  { s with
    conversation :=
      { id := newId, title := "", messages := [], createdAt := 0,
        updatedAt := 0 }
    lastTranscription := ""
    lastAIResponse := ""
    error := ""
    setupRequired := false
    isProcessing := false
    isAIProcessing := false
    useSystemPrompt := true }

/-- `stopCapture` (part_002 lines 1068-1094): abort the current controller and
null the ref, then `await invoke("stop_system_audio_capture")`; on success
reset the capture flags and clear the transient fields, on failure (the
`catch`, with the thrown message as `invokeError`) only set the error.  The
conversation is untouched in both cases. -/
def stopCapture (invokeError : Option String) (s : OverlayState) :
    OverlayState :=
  let s1 := { abortCurrentController s with abortRef := none }
  match invokeError with
  | none =>
    { s1 with
      capturing := false
      isProcessing := false
      isAIProcessing := false
      isContinuousMode := false
      isRecordingInContinuousMode := false
      recordingProgress := 0
      lastTranscription := ""
      lastAIResponse := ""
      error := "" }
  | some msg => { s1 with error := "Failed to stop capture: " ++ msg }

/-- The microphone-VAD control effect (part_002 lines 329-340): when
`includeMicrophone` and `capturing` hold, start the mic VAD if it is not
listening (a no-op while it is still loading or errored, modelled by
`micVadReady`); otherwise pause it. -/
def micVadControlEffect (s : OverlayState) : OverlayState :=
  if s.includeMicrophone ∧ s.capturing then
    if ¬ s.micVadListening then
      (if s.micVadReady then { s with micVadListening := true } else s)
    else s
  else
    if s.micVadListening then { s with micVadListening := false } else s

/-! ## Speech-detected handler: STT race, dispatch, and in-flight guards -/

/-- Which side of `Promise.race([sttPromise, timeoutPromise])` settles first
(part_002 lines 561-579).  The timeout side carries no text: the loser's
eventual value is unreachable from the race result. -/
inductive SttRaceOutcome where
  | transcribed (text : String)
  | timedOut
deriving DecidableEq, Repr

/-- `Promise.race` semantics: whichever settles first wins; the eventual STT
text is only visible when the timeout did not fire first. -/
def raceOutcome (timeoutFirst : Bool) (sttText : String) : SttRaceOutcome :=
  if timeoutFirst then SttRaceOutcome.timedOut
  else SttRaceOutcome.transcribed sttText

/-- A completion dispatch issued by the speech-detected handler. -/
structure CompletionDispatch where
  userMessage : String
  source : Source
deriving DecidableEq, Repr

/-- JavaScript `String.prototype.trim()`: strip leading and trailing
whitespace.  (Embedded over the character list so that it evaluates by
kernel reduction.) -/
def jsTrim (s : String) : String :=
  String.mk
    (((s.data.dropWhile Char.isWhitespace).reverse.dropWhile
        Char.isWhitespace).reverse)

/-- The tail of the speech-detected listener after the race settles (part_002
lines 575-610): a non-blank transcription is stored in `lastTranscription`,
clears the error, and is dispatched to `processWithAI` with source
"system_audio"; a blank one sets "Received empty transcription"; a rejection
(the timeout) lands in the catch, which sets the error and opens the popover.
The `finally` clears `isProcessing` in every path. -/
def speechDetectedSettle (s : OverlayState) (outcome : SttRaceOutcome) :
    OverlayState × Option CompletionDispatch :=
  match outcome with
  | SttRaceOutcome.timedOut =>
    ({ s with
        error := "Speech transcription timed out (30s)"
        isPopoverOpen := true
        isProcessing := false }, none)
  | SttRaceOutcome.transcribed transcription =>
    if jsTrim transcription = "" then
      ({ s with
          error := "Received empty transcription"
          isProcessing := false }, none)
    else
      ({ s with
          lastTranscription := transcription
          error := ""
          isProcessing := false },
        some { userMessage := transcription, source := Source.system_audio })

/-- Whether the speech-detected listener (part_002 lines 530-611) reaches its
`fetchSTT` call: it returns early when not capturing or when no provider is
available; it never consults the in-flight `isProcessing` flag (the parameter
is unused, exactly as in the source). -/
def speechDetectedIssuesSttCall (capturing providerOk isProcessing : Bool) :
    Bool :=
  if capturing = false then false
  else if providerOk = false then false
  else true

/-- Whether `AutoSpeechVad.onSpeechEnd` (AutoSpeechVad.tsx lines 42-88)
reaches its `fetchSTT` call: the guard "Prevent concurrent transcription
requests" drops the event while `isTranscribing` holds, and a missing provider
also returns early. -/
def autoSpeechVadIssuesSttCall (isTranscribing providerOk : Bool) : Bool :=
  if isTranscribing then false
  else if providerOk = false then false
  else true

/-- STT calls issued by the system-audio speech-detected listener across two
speech-end events where the second arrives while the first is still in flight
(`isProcessing` already raised by the first). -/
def twoOverlappingSystemEventsSttCalls : ℕ :=
  (if speechDetectedIssuesSttCall true true false then 1 else 0) +
  (if speechDetectedIssuesSttCall true true true then 1 else 0)

/-! ## fetchSTT response tail (src/lib/functions, in audio-mixer part) -/

/-- `[...parts].join("; ")` as used in `fetchSTT`. -/
def joinSemicolon (parts : List String) : String :=
  String.intercalate "; " parts

/-- The tail of `fetchSTT` once the HTTP response text has parsed as JSON
(fetchSTT lines 618-634): extract by the provider's field path (already
defaulted to "" and about to be trimmed), return the status string
"No transcription found" joined onto the warnings when the trimmed extraction
is empty, return "" for a hallucination, and otherwise join warnings and
transcription (dropping empty parts).  The hallucination predicate is the
regex-based `isLikelyHallucination`, abstracted as a parameter; it is not
reached on the empty-extraction path. -/
def fetchSTTOnJson (warnings : List String) (rawExtraction : String)
    (isLikelyHallucination : String → Bool) : String :=
  let transcription := jsTrim rawExtraction
  if transcription = "" then
    joinSemicolon (warnings ++ ["No transcription found"])
  else if isLikelyHallucination transcription then ""
  else joinSemicolon ((warnings ++ [transcription]).filter (fun p => p ≠ ""))

/-! ## Concrete states for the counterexamples -/

/-- The hook's initial state (part_002 lines 129-158): nothing in flight, an
empty conversation, no controller allocated. -/
def initialOverlayState : OverlayState :=
  { capturing := false
    isProcessing := false
    isAIProcessing := false
    isContinuousMode := false
    isRecordingInContinuousMode := false
    recordingProgress := 0
    lastTranscription := ""
    lastAIResponse := ""
    error := ""
    setupRequired := false
    isPopoverOpen := false
    useSystemPrompt := true
    includeMicrophone := false
    micVadReady := false
    micVadListening := false
    isMicProcessing := false
    conversation :=
      { id := "", title := "", messages := [], createdAt := 0, updatedAt := 0 }
    controllers := fun _ => false
    nextControllerId := 0
    abortRef := none }

/-! ## Claims C1, C2, C5, C6, C9, C10 -/

/-- Claim C1 counterexample: start a stream with `processWithAI`, then call
`startNewConversation` while it is in flight.  The stream's controller
(id 0) is NOT aborted by the reset, and when the stream later finishes with a
non-empty response, the freshly reset conversation contains its two messages
rather than zero. -/
theorem startNewConversation_no_abort_counterexample :
    (startNewConversation "conv2"
        (processWithAIStart initialOverlayState)).controllers 0 = false ∧
    (startNewConversation "conv2"
        (processWithAIStart initialOverlayState)).abortRef = some 0 ∧
    (processWithAIFinish
        (startNewConversation "conv2" (processWithAIStart initialOverlayState))
        "hello" "bonjour" Source.system_audio 100).conversation.id
      = "conv2" ∧
    (processWithAIFinish
        (startNewConversation "conv2" (processWithAIStart initialOverlayState))
        "hello" "bonjour" Source.system_audio 100).conversation.messages.length
      = 2 := by
  refine ⟨rfl, rfl, rfl, rfl⟩

/-- Claim C1 amended: `startNewConversation` resets the conversation but does
not abort the in-flight stream's controller (the controller table and the
abort ref are unchanged), and a stream that finishes after the reset commits
its user and assistant messages into the freshly reset conversation whenever
its accumulated response is non-empty. -/
theorem startNewConversation_stream_commit (s : OverlayState)
    (newId transcription fullResponse : String) (source : Source)
    (timestamp : ℕ) :
    (startNewConversation newId s).controllers = s.controllers ∧
    (startNewConversation newId s).abortRef = s.abortRef ∧
    (processWithAIFinish (startNewConversation newId s)
        transcription fullResponse source timestamp).conversation.messages
      = (if fullResponse = "" then []
         else
          [{ id := generateMessageId "user" timestamp, role := "user",
             content := transcription, timestamp := timestamp,
             source := some source },
           { id := generateMessageId "assistant" (timestamp + 1),
             role := "assistant", content := fullResponse,
             timestamp := timestamp + 1, source := some source }]) := by
  refine ⟨rfl, rfl, ?_⟩
  by_cases h : fullResponse = "" <;>
    simp [processWithAIFinish, startNewConversation, h]

/-- Claim C2 counterexample: an utterance processed by `processWithAI` whose
accumulated streaming response is empty appends nothing to the conversation —
in particular the triggering transcript is NOT recorded as a user message. -/
theorem emptyResponse_user_turn_counterexample :
    (processWithAIFinish initialOverlayState "hello" "" Source.system_audio
        5).conversation.messages = [] := by
  rfl

/-- Claim C2 amended: on an empty accumulated response, `processWithAI` leaves
the conversation entirely unchanged (neither a user nor an assistant message
is appended), while `processMicrophoneAudio` still prepends exactly the user
message carrying the transcript, with no assistant message. -/
theorem emptyResponse_commit_behavior (s : OverlayState)
    (transcription : String) (source : Source) (timestamp : ℕ) :
    (processWithAIFinish s transcription "" source timestamp).conversation
      = s.conversation ∧
    (processMicrophoneAudioFinish s transcription ""
        timestamp).conversation.messages
      = { id := generateMessageId "user" timestamp, role := "user",
          content := transcription, timestamp := timestamp,
          source := some Source.microphone } :: s.conversation.messages := by
  constructor
  · simp [processWithAIFinish]
  · simp [processMicrophoneAudioFinish]

/-- Claim C5 counterexample: on the system-audio track, a second speech-end
event arriving while the first is still being transcribed (`isProcessing`
raised) is NOT dropped — the listener issues a second `fetchSTT` call, so the
two overlapping events produce two STT calls, not exactly one. -/
theorem overlapping_speech_events_two_stt_calls :
    speechDetectedIssuesSttCall true true true = true ∧
    twoOverlappingSystemEventsSttCalls = 2 := by
  exact ⟨rfl, rfl⟩

/-- Claim C5 amended: only the `AutoSpeechVad` microphone handler drops a
speech-end event that arrives while a transcription is in flight
(`isTranscribing` guard); the orchestrator's system-audio speech-detected
listener has no in-flight guard — whether it issues an STT call is
independent of `isProcessing`. -/
theorem inflight_guard_per_handler (capturing providerOk : Bool) :
    autoSpeechVadIssuesSttCall true providerOk = false ∧
    speechDetectedIssuesSttCall capturing providerOk true
      = speechDetectedIssuesSttCall capturing providerOk false := by
  exact ⟨rfl, rfl⟩

/-- Claim C6: when the 30-second timeout settles the race first, the handler
records the timeout error and opens the popover, but the STT promise's
eventual text (whatever it turns out to be) is never applied to visible
state: `lastTranscription` and the conversation are unchanged and no
completion request is dispatched. -/
theorem stt_timeout_discards_late_result (s : OverlayState)
    (lateSttText : String) :
    (speechDetectedSettle s (raceOutcome true lateSttText)).1.lastTranscription
      = s.lastTranscription ∧
    (speechDetectedSettle s (raceOutcome true lateSttText)).1.conversation
      = s.conversation ∧
    (speechDetectedSettle s (raceOutcome true lateSttText)).2 = none ∧
    (speechDetectedSettle s (raceOutcome true lateSttText)).1.error
      = "Speech transcription timed out (30s)" := by
  refine ⟨rfl, rfl, rfl, rfl⟩

/-- Claim C9: `stopCapture` (with the native stop command succeeding) aborts
exactly the in-flight controller (a controller is aborted afterwards iff it
was the current one or was already aborted), resets the capture flags of both
tracks to inactive (the mic-VAD control effect pauses the microphone VAD once
`capturing` is false), clears `lastTranscription`, `lastAIResponse` and
`error`, and leaves the conversation object untouched. -/
theorem stopCapture_effects (s : OverlayState) (i : ℕ) :
    (micVadControlEffect (stopCapture none s)).conversation
      = s.conversation ∧
    (micVadControlEffect (stopCapture none s)).capturing = false ∧
    (micVadControlEffect (stopCapture none s)).isProcessing = false ∧
    (micVadControlEffect (stopCapture none s)).isAIProcessing = false ∧
    (micVadControlEffect (stopCapture none s)).isContinuousMode = false ∧
    (micVadControlEffect
        (stopCapture none s)).isRecordingInContinuousMode = false ∧
    (micVadControlEffect (stopCapture none s)).recordingProgress = 0 ∧
    (micVadControlEffect (stopCapture none s)).micVadListening = false ∧
    (micVadControlEffect (stopCapture none s)).lastTranscription = "" ∧
    (micVadControlEffect (stopCapture none s)).lastAIResponse = "" ∧
    (micVadControlEffect (stopCapture none s)).error = "" ∧
    (micVadControlEffect (stopCapture none s)).abortRef = none ∧
    (micVadControlEffect (stopCapture none s)).controllers i
      = ((s.abortRef = some i : Bool) || s.controllers i) := by
  have hstop : ∀ (t : OverlayState), t.capturing = false →
      (micVadControlEffect t) =
        (if t.micVadListening then { t with micVadListening := false }
         else t) := by
    intro t ht
    unfold micVadControlEffect
    rw [ht]
    simp
  cases hr : s.abortRef with
  | none =>
    simp only [stopCapture, abortCurrentController, hr]
    by_cases hl : s.micVadListening <;>
      simp_all [micVadControlEffect]
  | some k =>
    simp only [stopCapture, abortCurrentController, hr]
    by_cases hl : s.micVadListening <;>
      by_cases hik : i = k <;>
        simp_all [micVadControlEffect] <;>
          (intro h; exact absurd h.symm hik)

/-- Claim C10: when the STT response parses as JSON but the provider-declared
field path yields an empty transcript, `fetchSTT` returns the literal status
string "No transcription found" joined with the warnings (the warnings list is
empty in the current code, so the bare status string); that string is
non-blank, so the speech-detected handler stores it as the last transcription
and forwards it to the completion backend as the user message. -/
theorem empty_extraction_status_string_forwarded (s : OverlayState)
    (isLikelyHallucination : String → Bool) :
    fetchSTTOnJson [] "" isLikelyHallucination = "No transcription found" ∧
    (speechDetectedSettle s
        (SttRaceOutcome.transcribed
          (fetchSTTOnJson [] "" isLikelyHallucination))).2
      = some { userMessage := "No transcription found",
               source := Source.system_audio } ∧
    (speechDetectedSettle s
        (SttRaceOutcome.transcribed
          (fetchSTTOnJson [] "" isLikelyHallucination))).1.lastTranscription
      = "No transcription found" := by
  have hjson : fetchSTTOnJson [] "" isLikelyHallucination
      = "No transcription found" := by
    rfl
  have htrim : jsTrim "No transcription found"
      = "No transcription found" := by decide
  refine ⟨hjson, ?_, ?_⟩ <;>
    rw [hjson] <;>
      simp [speechDetectedSettle, htrim]

end TalkEcho
